import Mathlib

/-!
Shallow embedding of the watubet crash-game backend (TypeScript sources:
`gameSession.ts`, `socketServer.ts`, `src/services/BetSimulator.ts`).

Numbers that the TypeScript code holds in IEEE doubles are modelled as
exact rationals; the HMAC-derived 52-bit integer and the jitter random
byte are passed as explicit parameters (shared between generation and
verification, as the audited claims direct).
-/

namespace Watubet

/-- `Math.floor(x * 100) / 100`: truncation to two decimal places. -/
def floor2 (x : ℚ) : ℚ := (Int.floor (x * 100) : ℚ) / 100

/-- The multiplicative jitter factor
`1 + (crypto.randomBytes(1)[0] / 255 - 0.5) * 0.03` with the random byte
`b` (0..255) made an explicit parameter. -/
def jitterFactor (b : ℕ) : ℚ := 1 + ((b : ℚ) / 255 - 1/2) * (3/100)

/-- `CrashGame.calculateCrashPoint` (BetSimulator.ts, lines 1185-1231),
from the HMAC-derived 52-bit integer `h` on: `r = h / 2^52`, the
generation bucket table (instant crash below `r = 0.30`), jitter, house
edge division, two-decimal floor, optional max-crashpoint clamp, clamp
to ≥ 1. -/
def calculateCrashPoint (isEmergencyCrash enforceMaxCrashpoint : Bool)
    (maxAllowedCrashpoint houseEdge : ℚ) (h b : ℕ) : ℚ :=
  let r : ℚ := (h : ℚ) / 2 ^ 52
  if isEmergencyCrash then 1
  else if r < 30/100 then 1
  else
    let cp : ℚ :=
      if r < 31/100 then 20 + ((r - 30/100) / (1/100)) * 20
      else if r < 34/100 then 8 + ((r - 31/100) / (3/100)) * 12
      else if r < 40/100 then 4 + ((r - 34/100) / (6/100)) * 4
      else if r < 55/100 then 2 + ((r - 40/100) / (15/100)) * 2
      else if r < 75/100 then 13/10 + ((r - 55/100) / (20/100)) * (7/10)
      else 101/100 + ((r - 75/100) / (25/100)) * (29/100)
    let cp := if cp > 1 then cp * jitterFactor b else cp
    let cp := cp / (1 - houseEdge)
    let cp := floor2 cp
    let cp := if enforceMaxCrashpoint ∧ cp > maxAllowedCrashpoint
              then maxAllowedCrashpoint else cp
    max 1 cp

/-- `CrashGame.verifyGame` (BetSimulator.ts, lines 1511-1559), from the
HMAC-derived 52-bit integer `h` on: `r = h / 2^52`, the verification
bucket table (instant crash below `r = 0.10`, buckets up to 200x),
jitter, house edge division, two-decimal floor, clamp to ≥ 1. -/
def verifyGame (houseEdge : ℚ) (h b : ℕ) : ℚ :=
  let r : ℚ := (h : ℚ) / 2 ^ 52
  if r < 10/100 then 1
  else
    let cp : ℚ :=
      if r < 12/100 then 100 + ((r - 10/100) / (2/100)) * 100
      else if r < 15/100 then 50 + ((r - 12/100) / (3/100)) * 50
      else if r < 18/100 then 30 + ((r - 15/100) / (3/100)) * 20
      else if r < 22/100 then 15 + ((r - 18/100) / (4/100)) * 15
      else if r < 28/100 then 8 + ((r - 22/100) / (6/100)) * 7
      else if r < 38/100 then 4 + ((r - 28/100) / (10/100)) * 4
      else if r < 53/100 then 2 + ((r - 38/100) / (15/100)) * 2
      else if r < 75/100 then 3/2 + ((r - 53/100) / (22/100)) * (1/2)
      else 11/10 + ((r - 75/100) / (15/100)) * (4/10)
    let cp := if cp > 1 then cp * jitterFactor b else cp
    let cp := cp / (1 - houseEdge)
    let cp := floor2 cp
    max 1 cp

/-! ## GameSession (gameSession.ts) -/

/-- One entry of a `GameSession` bet ledger (`Map<string, {walletId, amount,
cashoutAt}>` in gameSession.ts): `cashoutAt = none` models the open bet. -/
structure BetEntry where
  walletId : String
  amount : ℚ
  cashoutAt : Option ℚ
deriving DecidableEq

/-- The mutable state of a `GameSession` (gameSession.ts, lines 13-35).
The two JS `Map`s are modelled as key-ordered association lists (a `Map`
holds at most one entry per key); timestamps are rationals. -/
structure SessionState where
  crashPoint : ℚ
  gameStartTime : Option ℚ
  gameEndTime : Option ℚ
  currentMultiplier : ℚ
  bets : List (String × BetEntry)
  secondBets : List (String × BetEntry)
  nextRoundBets : List (String × ℚ)
  secondNextRoundBets : List (String × ℚ)
deriving DecidableEq

/-- `GameSession.isGameInProgress` (gameSession.ts, lines 50-52). -/
def isGameInProgress (s : SessionState) : Bool :=
  s.gameStartTime.isSome && s.gameEndTime.isNone

/-- `GameSession.placeBet` (gameSession.ts, lines 124-133): succeeds and
inserts exactly when the primary ledger has no entry for the wallet. -/
def placeBet (s : SessionState) (walletId : String) (amount : ℚ) :
    Bool × SessionState :=
  if (s.bets.lookup walletId).isSome then (false, s)
  else (true, { s with bets := s.bets ++ [(walletId, ⟨walletId, amount, none⟩)] })

/-- `GameSession.placeSecondBet` (gameSession.ts, lines 203-212). -/
def placeSecondBet (s : SessionState) (walletId : String) (amount : ℚ) :
    Bool × SessionState :=
  if (s.secondBets.lookup walletId).isSome then (false, s)
  else (true, { s with secondBets := s.secondBets ++ [(walletId, ⟨walletId, amount, none⟩)] })

/-- The in-place mutation `bet.cashoutAt = this.currentMultiplier` on the
ledger entry of `walletId`. -/
def setCashout (l : List (String × BetEntry)) (walletId : String) (m : ℚ) :
    List (String × BetEntry) :=
  l.map fun kv => if kv.1 = walletId then (kv.1, { kv.2 with cashoutAt := some m }) else kv

/-- `GameSession.cashout` (gameSession.ts, lines 153-173): fails (returns
`none`) when the game is not in progress, when no ledger entry exists, or
when the entry already has a cashout multiplier; otherwise sets the
cashout multiplier to the current multiplier and returns
`amount * currentMultiplier`. -/
def cashout (s : SessionState) (walletId : String) : Option ℚ × SessionState :=
  if !isGameInProgress s then (none, s)
  else
    match s.bets.lookup walletId with
    | none => (none, s)
    | some bet =>
      match bet.cashoutAt with
      | some _ => (none, s)
      | none => (some (bet.amount * s.currentMultiplier),
                 { s with bets := setCashout s.bets walletId s.currentMultiplier })

/-- `GameSession.secondCashout` (gameSession.ts, lines 232-252). -/
def secondCashout (s : SessionState) (walletId : String) : Option ℚ × SessionState :=
  if !isGameInProgress s then (none, s)
  else
    match s.secondBets.lookup walletId with
    | none => (none, s)
    | some bet =>
      match bet.cashoutAt with
      | some _ => (none, s)
      | none => (some (bet.amount * s.currentMultiplier),
                 { s with secondBets := setCashout s.secondBets walletId s.currentMultiplier })

/-- `GameSession.forceGameEnd` (gameSession.ts, lines 288-294): when the
game is in progress, freezes the crash point at the current multiplier
and stamps the end time. -/
def forceGameEnd (now : ℚ) (s : SessionState) : SessionState :=
  if isGameInProgress s then
    { s with crashPoint := s.currentMultiplier, gameEndTime := some now }
  else s

/-- `GameSession.updateMultiplier` (gameSession.ts, lines 54-65), from the
raw exponential value on: `raw = Math.pow(E, 0.3 * elapsed / 1000)` is
passed as a parameter so the quantization step is exact. The grid uses
increment `0.51` above 10x and `0.011` otherwise; `Math.round` is
round-half-up, and at most ONE increment is applied per call however
large `steps` is. -/
def updateMultiplier {α : Type} [LinearOrderedField α] [FloorRing α]
    (currentMultiplier raw : α) : α :=
  let increment : α := if currentMultiplier > 10 then 51/100 else 11/1000
  let steps : ℤ := Int.floor ((raw - currentMultiplier) / increment)
  if 0 < steps then (Int.floor ((currentMultiplier + increment) * 100 + 1/2) : α) / 100
  else currentMultiplier

/-- A sample in-progress session with one open bet on each track. -/
def sampleSession : SessionState :=
  { crashPoint := 2
    gameStartTime := some 0
    gameEndTime := none
    currentMultiplier := 3/2
    bets := [("alice", ⟨"alice", 100, none⟩)]
    secondBets := [("alice", ⟨"alice", 50, none⟩)]
    nextRoundBets := []
    secondNextRoundBets := [] }

/-! ## Risk monitor and crash-point policy (BetSimulator.ts, socketServer.ts) -/

/-- JS `walletId.startsWith(p)`, modelled as a character-list prefix
check so that it evaluates inside the kernel. -/
def strStartsWith (s p : String) : Bool := p.data.isPrefixOf s.data

/-- The wallet filter used throughout: system (`SW_`) and simulation
(`SIM_`) wallets are excluded from real-money accounting. -/
def isRealWallet (walletId : String) : Bool :=
  !(strStartsWith walletId "SW_" || strStartsWith walletId "SIM_")

/-- The total potential net winnings loop of `checkEmergencyConditions`
(socketServer.ts, lines 2719-2725) over real-money active bets
`(amount, walletId)` at the current multiplier:
`Σ (amount * multiplier - amount)`. -/
def potentialNetWinnings (activeBets : List (ℚ × String)) (currentMultiplier : ℚ) : ℚ :=
  ((activeBets.filter fun bet => isRealWallet bet.2).map
    fun bet => bet.1 * currentMultiplier - bet.1).sum

/-- `CrashGame.wouldTriggerEmergencyCrash` (BetSimulator.ts, lines
1608-1614): STRICT comparison of realized/potential winnings plus the
additional winnings against the emergency threshold. -/
def wouldTriggerEmergencyCrash
    (currentGameWinnings potentialWinnings emergencyThreshold additionalWinnings : ℚ)
    (isSimulated : Bool) : Bool :=
  if isSimulated then false
  else decide (currentGameWinnings + additionalWinnings > emergencyThreshold)
    || decide (potentialWinnings + additionalWinnings > emergencyThreshold)

/-- `CrashGame.calculateBetBasedCrashPoint` (BetSimulator.ts, lines
1767-1829).  The three `Math.random()` draws (skip check, high-frequency
check, high multiplier) are explicit parameters in `[0, 1)`.  Returns
`-1` to signal "use the pre-committed point". -/
def calculateBetBasedCrashPoint
    (skipCrashPointManagement betBasedHouseEdgePercentage minCrashPoint
     highCrashPointFrequency : ℚ) (randSkip randHigh randMult : ℚ)
    (activeBets : List (ℚ × String)) : ℚ :=
  if randSkip * 100 < skipCrashPointManagement then -1
  else
    let realBets := activeBets.filter fun bet => isRealWallet bet.2
    let totalBetAmount := (realBets.map fun bet => bet.1).sum
    if totalBetAmount = 0 then -1
    else
      let targetProfit := totalBetAmount * (betBasedHouseEdgePercentage / 100)
      let crashPoint := totalBetAmount / targetProfit
      let crashPoint := if crashPoint < minCrashPoint then minCrashPoint + crashPoint
                        else crashPoint
      let crashPoint := if randHigh * 100 < highCrashPointFrequency
                        then crashPoint * (3/2 + randMult * (7/2)) else crashPoint
      floor2 crashPoint

/-- The pre-round override step of `startNewGame` (socketServer.ts, lines
3319-3339): when the bet-based feature is enabled, the next-round buffer
is non-empty and the policy value is positive, the pre-committed crash
point is REPLACED by the policy value (no comparison with the
pre-committed point is made). -/
def startNewGameCrashPoint (betBasedEnabled bufferNonempty : Bool)
    (precommitted betBasedCrashPoint : ℚ) : ℚ :=
  if betBasedEnabled ∧ bufferNonempty ∧ betBasedCrashPoint > 0 then betBasedCrashPoint
  else precommitted

/-! ## Offset accumulator (BetSimulator.ts) -/

/-- `CrashGame.updateBetBasedOffsetAmount` (BetSimulator.ts, lines
1957-1972): adds the (possibly negative) amount and clamps the SUM at 0. -/
def updateBetBasedOffsetAmount (betBasedOffsetAmount amount : ℚ) : ℚ :=
  max 0 (betBasedOffsetAmount + amount)

/-- The payout a bet contributes in `trackRoundResults`: its stake times
its cashout multiplier when it cashed out at a positive multiplier not
above the final crash point, else nothing. -/
def payoutOf (finalCrashPoint : ℚ) (bet : BetEntry) : ℚ :=
  match bet.cashoutAt with
  | some c => if 0 < c ∧ c ≤ finalCrashPoint then bet.amount * c else 0
  | none => 0

/-- `CrashGame.trackRoundResults` (BetSimulator.ts, lines 1992-2027):
returns the new persisted offset.  With no real bets the offset is left
unchanged; otherwise the house profit `totalStake - totalPayouts`
(possibly negative) is added through `updateBetBasedOffsetAmount`. -/
def trackRoundResults (betBasedOffsetAmount : ℚ) (activeBets : List BetEntry)
    (finalCrashPoint : ℚ) : ℚ :=
  let realBets := activeBets.filter fun bet => isRealWallet bet.walletId
  if realBets.length = 0 then betBasedOffsetAmount
  else
    let totalBetAmount := (realBets.map fun bet => bet.amount).sum
    let totalPayouts := (realBets.map (payoutOf finalCrashPoint)).sum
    updateBetBasedOffsetAmount betBasedOffsetAmount (totalBetAmount - totalPayouts)

/-! ## Round queue (BetSimulator.ts `advanceToNextRound`) -/

/-- Fuelled model of `CrashGame.advanceToNextRound` (BetSimulator.ts,
lines 1341-1389).  `genBatch` is the list of crash points one
`generateNextRounds` call adds to the durable queue (the empty list
models a generation that persistently adds nothing); `failsAt k` says
whether the k-th attempt throws, taking the catch path that sleeps 2s
and re-invokes the method.  `fuel` bounds the number of self-invocations
still allowed: `none` means the recursion was STILL RUNNING when the
fuel ran out, `some (p, queue)` that the call returned, having consumed
point `p`.  `POINTS_TO_GENERATE = 25`, and a batch is regenerated in the
background once fewer than `25 / 2` unused points remain. -/
def advanceToNextRound (failsAt : ℕ → Bool) (genBatch : List ℚ) :
    List ℚ → ℕ → ℕ → Option (ℚ × List ℚ)
  | _, 0, _ => none
  | queue, fuel + 1, attempt =>
    if failsAt attempt then advanceToNextRound failsAt genBatch queue fuel (attempt + 1)
    else
      match queue with
      | point :: rest =>
        some (point, if (rest.length : ℚ) < 25 / 2 then rest ++ genBatch else rest)
      | [] => advanceToNextRound failsAt genBatch genBatch fuel (attempt + 1)

/-! ## Balance persistence (socketServer.ts `updateUserBalance`) -/

/-- `updateUserBalance` (socketServer.ts, lines 159-177): persists
`Math.max(0, newBalance)` for the wallet and, when an in-memory user
object for that wallet is cached, overwrites its cached balance with the
same clamped value.  Modelled on the pair (persisted balances, cache). -/
def updateUserBalance (balances : String → ℚ) (cache : String → Option ℚ)
    (walletId : String) (newBalance : ℚ) : (String → ℚ) × (String → Option ℚ) :=
  (fun w => if w = walletId then max 0 newBalance else balances w,
   fun w => if w = walletId then (cache w).map fun _ => max 0 newBalance else cache w)

/-! ## Theorems -/

theorem isRealWallet_alice : isRealWallet "alice" = true := by decide

theorem lookup_cons_self {β : Type} (k : String) (b : β) (tl : List (String × β)) :
    List.lookup k ((k, b) :: tl) = some b := by
  simp [List.lookup]

theorem lookup_cons_of_ne {β : Type} {w k : String} (h : k ≠ w) (b : β)
    (tl : List (String × β)) :
    List.lookup w ((k, b) :: tl) = List.lookup w tl := by
  simp [List.lookup, beq_eq_false_iff_ne.mpr (Ne.symm h)]

theorem lookup_setCashout (l : List (String × BetEntry)) (w : String) (m : ℚ) :
    (setCashout l w m).lookup w
      = (l.lookup w).map fun b => { b with cashoutAt := some m } := by
  induction l with
  | nil => rfl
  | cons kv tl ih =>
    obtain ⟨k, b⟩ := kv
    by_cases h : k = w
    · subst h
      simp [setCashout, lookup_cons_self]
    · simp only [setCashout, List.map_cons, if_neg h, lookup_cons_of_ne h]
      exact ih

/-- C5: at most one bet per (wallet, track) slot: a second `placeBet`
(resp. `placeSecondBet`) for a wallet that already has an entry in that
track's ledger returns failure and leaves the whole session state
unchanged. -/
theorem placeBet_duplicate_rejected (s : SessionState) (w : String) (amount : ℚ) :
    ((s.bets.lookup w).isSome = true → placeBet s w amount = (false, s)) ∧
    ((s.secondBets.lookup w).isSome = true → placeSecondBet s w amount = (false, s)) := by
  constructor <;> intro h
  · simp [placeBet, h]
  · simp [placeSecondBet, h]

/-- C5 witness: in the sample session, wallet `alice` already holds a bet
on each track, so a second placement fails and changes nothing. -/
theorem placeBet_duplicate_rejected_witness :
    placeBet sampleSession "alice" 7 = (false, sampleSession) ∧
    placeSecondBet sampleSession "alice" 7 = (false, sampleSession) :=
  ⟨(placeBet_duplicate_rejected sampleSession "alice" 7).1 (by decide),
   (placeBet_duplicate_rejected sampleSession "alice" 7).2 (by decide)⟩

/-- C6: two consecutive `cashout` calls on the same open bet within the
same tick (same current multiplier): the first succeeds with winnings
`stake * multiplier` and sets the cashout multiplier; the second fails
and leaves the state unchanged, because the cashout multiplier, once
set, is never overwritten.  The same holds on the second track. -/
theorem cashout_exactly_once (s : SessionState) (w : String) :
    (∀ bet, isGameInProgress s = true → s.bets.lookup w = some bet →
      bet.cashoutAt = none →
      (cashout s w).1 = some (bet.amount * s.currentMultiplier) ∧
      cashout (cashout s w).2 w = (none, (cashout s w).2)) ∧
    (∀ bet, isGameInProgress s = true → s.secondBets.lookup w = some bet →
      bet.cashoutAt = none →
      (secondCashout s w).1 = some (bet.amount * s.currentMultiplier) ∧
      secondCashout (secondCashout s w).2 w = (none, (secondCashout s w).2)) := by
  constructor <;> intro bet hprog hbet hopen
  · have h1 : cashout s w
        = (some (bet.amount * s.currentMultiplier),
           { s with bets := setCashout s.bets w s.currentMultiplier }) := by
      simp [cashout, hprog, hbet, hopen]
    refine ⟨by rw [h1], ?_⟩
    rw [h1]
    have hprog2 : isGameInProgress
        { s with bets := setCashout s.bets w s.currentMultiplier } = true := hprog
    have h2 : List.lookup w (setCashout s.bets w s.currentMultiplier)
        = some { bet with cashoutAt := some s.currentMultiplier } := by
      rw [lookup_setCashout, hbet]
      rfl
    simp [cashout, hprog2, h2]
  · have h1 : secondCashout s w
        = (some (bet.amount * s.currentMultiplier),
           { s with secondBets := setCashout s.secondBets w s.currentMultiplier }) := by
      simp [secondCashout, hprog, hbet, hopen]
    refine ⟨by rw [h1], ?_⟩
    rw [h1]
    have hprog2 : isGameInProgress
        { s with secondBets := setCashout s.secondBets w s.currentMultiplier } = true := hprog
    have h2 : List.lookup w (setCashout s.secondBets w s.currentMultiplier)
        = some { bet with cashoutAt := some s.currentMultiplier } := by
      rw [lookup_setCashout, hbet]
      rfl
    simp [secondCashout, hprog2, h2]

/-- C6 witness: wallet `alice` holds an open 100-stake bet (and an open
50-stake second bet) in the sample session at multiplier 3/2; on each
track the first cashout succeeds with `stake * 3/2` and the second call
fails and does not change the state. -/
theorem cashout_exactly_once_witness :
    ((cashout sampleSession "alice").1 = some ((100 : ℚ) * (3/2)) ∧
      cashout (cashout sampleSession "alice").2 "alice"
        = (none, (cashout sampleSession "alice").2)) ∧
    ((secondCashout sampleSession "alice").1 = some ((50 : ℚ) * (3/2)) ∧
      secondCashout (secondCashout sampleSession "alice").2 "alice"
        = (none, (secondCashout sampleSession "alice").2)) :=
  ⟨(cashout_exactly_once sampleSession "alice").1 ⟨"alice", 100, none⟩
      (by decide) (by decide) rfl,
   (cashout_exactly_once sampleSession "alice").2 ⟨"alice", 50, none⟩
      (by decide) (by decide) rfl⟩

/-- C10: `placeBet` succeeds exactly when the primary ledger has no entry
for the wallet (open or cashed out); it never consults the lifecycle
state (same outcome for any start/end timestamps), and on success the
bet is inserted directly into the live ledger. -/
theorem placeBet_ignores_lifecycle (s : SessionState) (w : String) (amount : ℚ)
    (startTime endTime : Option ℚ) :
    ((placeBet s w amount).1 = (s.bets.lookup w).isNone) ∧
    ((placeBet { s with gameStartTime := startTime, gameEndTime := endTime } w amount).1
      = (placeBet s w amount).1) ∧
    ((placeBet s w amount).2.bets
      = if (s.bets.lookup w).isSome then s.bets
        else s.bets ++ [(w, ⟨w, amount, none⟩)]) := by
  cases hO : s.bets.lookup w with
  | some bet => simp [placeBet, hO]
  | none => simp [placeBet, hO]

/-- C7 (amended): every `updateMultiplier` call yields a value that is at
least the previous multiplier (monotone non-decreasing) and at most one
quantization increment (plus the half-cent rounding) above it — the step
grid is `0.011` at or below 10x and `0.51` above — regardless of how far
ahead the raw exponential value is. -/
theorem updateMultiplier_step_bounds (current raw : ℚ) :
    current ≤ updateMultiplier current raw ∧
    updateMultiplier current raw
      ≤ current + (if current > 10 then (51 : ℚ)/100 else 11/1000) + 1/200 := by
  unfold updateMultiplier
  by_cases h10 : current > 10
  · simp only [if_pos h10]
    by_cases hs : (0 : ℤ) < Int.floor ((raw - current) / (51/100 : ℚ))
    · simp only [if_pos hs]
      have hfl : ((current + 51/100) * 100 + 1/2 : ℚ) - 1
          < (Int.floor ((current + 51/100) * 100 + 1/2 : ℚ) : ℚ) :=
        Int.sub_one_lt_floor _
      have hfu : ((Int.floor ((current + 51/100) * 100 + 1/2 : ℚ) : ℚ))
          ≤ (current + 51/100) * 100 + 1/2 := Int.floor_le _
      constructor
      · rw [le_div_iff₀ (by norm_num : (0:ℚ) < 100)]
        linarith
      · rw [div_le_iff₀ (by norm_num : (0:ℚ) < 100)]
        linarith
    · simp only [if_neg hs]
      constructor
      · exact le_refl current
      · linarith
  · simp only [if_neg h10]
    by_cases hs : (0 : ℤ) < Int.floor ((raw - current) / (11/1000 : ℚ))
    · simp only [if_pos hs]
      have hfl : ((current + 11/1000) * 100 + 1/2 : ℚ) - 1
          < (Int.floor ((current + 11/1000) * 100 + 1/2 : ℚ) : ℚ) :=
        Int.sub_one_lt_floor _
      have hfu : ((Int.floor ((current + 11/1000) * 100 + 1/2 : ℚ) : ℚ))
          ≤ (current + 11/1000) * 100 + 1/2 := Int.floor_le _
      constructor
      · rw [le_div_iff₀ (by norm_num : (0:ℚ) < 100)]
        linarith
      · rw [div_le_iff₀ (by norm_num : (0:ℚ) < 100)]
        linarith
    · simp only [if_neg hs]
      constructor
      · exact le_refl current
      · linarith

/-- C7 counterexample: the update does NOT track the documented formula
`multiplier = e^(0.3*t)`.  One tick at elapsed time 10000 ms (t = 10 s)
starting from multiplier 1 produces 1.01, while the formula gives
`e^3 ≈ 20.09`: the gap exceeds 18, far beyond any step-grid tolerance
(the coarse grid step is 0.51). -/
theorem updateMultiplier_not_exponential :
    updateMultiplier (1 : ℝ) (Real.exp (3/10 * (10000/1000))) = 101/100 ∧
    18 < Real.exp (3/10 * (10000/1000)) - updateMultiplier (1 : ℝ) (Real.exp (3/10 * (10000/1000))) := by
  have h3 : (3/10 * (10000/1000) : ℝ) = 3 := by norm_num
  rw [h3]
  have hexp : (19.2 : ℝ) < Real.exp 3 := by
    have h1 : (2.7182818283 : ℝ) < Real.exp 1 := Real.exp_one_gt_d9
    have h2 : ((3 : ℕ) : ℝ) * 1 = 3 := by norm_num
    have h3 : Real.exp 3 = Real.exp 1 ^ (3 : ℕ) := by
      rw [← Real.exp_nat_mul, h2]
    have h4 : (2.7182818283 : ℝ) ^ (3 : ℕ) < Real.exp 1 ^ (3 : ℕ) := by
      gcongr
    nlinarith
  have hupdate : updateMultiplier (1 : ℝ) (Real.exp 3) = 101/100 := by
    unfold updateMultiplier
    have hns : ¬ ((1 : ℝ) > 10) := by norm_num
    simp only [if_neg hns]
    have hdiv : ((1 : ℤ) : ℝ) ≤ (Real.exp 3 - 1) / (11/1000 : ℝ) := by
      rw [le_div_iff₀ (by norm_num : (0:ℝ) < 11/1000)]
      push_cast
      linarith
    have hsteps : (0 : ℤ) < Int.floor ((Real.exp 3 - 1) / (11/1000 : ℝ)) := by
      have h1 := Int.le_floor.mpr hdiv
      omega
    simp only [if_pos hsteps]
    have hfloor : Int.floor (((1 : ℝ) + 11/1000) * 100 + 1/2) = 101 := by
      rw [Int.floor_eq_iff]
      constructor <;> norm_num
    rw [hfloor]
    norm_num
  refine ⟨hupdate, ?_⟩
  rw [hupdate]
  linarith

/-- C2 counterexample: the pre-round bet-based override can RAISE the
pre-committed crash point.  With the default policy settings (skip 10%,
edge 40%, min 2, high-frequency 80%), random draws that take neither
random branch, and one real 100-stake next-round bet, the policy value
is 2.5; `startNewGame` then replaces a pre-committed crash point of 1.2
by 2.5 > 1.2, contradicting "overrides can only lower it". -/
theorem betBasedOverride_raises_crashPoint :
    calculateBetBasedCrashPoint 10 40 2 80 (1/2) (9/10) 0 [(100, "alice")] = 5/2 ∧
    startNewGameCrashPoint true true (6/5) (5/2) = 5/2 ∧
    ¬ startNewGameCrashPoint true true (6/5) (5/2) ≤ 6/5 := by
  refine ⟨?_, ?_, ?_⟩ <;>
    norm_num [calculateBetBasedCrashPoint, isRealWallet_alice, floor2, startNewGameCrashPoint]

/-- C2 (amended): the MID-ROUND overrides do set the crash point to the
current live multiplier (`forceGameEnd`), so they never raise it past
the multiplier and only lower it while the multiplier has not yet
reached the committed point; the pre-round bet-based override, however,
replaces the point with the policy value whenever it is positive and can
raise it (see the counterexample). -/
theorem forceGameEnd_only_lowers (now : ℚ) (s : SessionState)
    (hprog : isGameInProgress s = true) :
    (forceGameEnd now s).crashPoint = s.currentMultiplier ∧
    (s.currentMultiplier ≤ s.crashPoint →
      (forceGameEnd now s).crashPoint ≤ s.crashPoint) := by
  constructor
  · simp [forceGameEnd, hprog]
  · intro hle
    simp [forceGameEnd, hprog]
    exact hle

/-- C2 witness: instantiating the amended mid-round statement on the
sample in-progress session. -/
theorem forceGameEnd_only_lowers_witness :
    (forceGameEnd 5 sampleSession).crashPoint = sampleSession.currentMultiplier ∧
    (sampleSession.currentMultiplier ≤ sampleSession.crashPoint →
      (forceGameEnd 5 sampleSession).crashPoint ≤ sampleSession.crashPoint) :=
  forceGameEnd_only_lowers 5 sampleSession (by decide)

/-- C3 counterexample: with `emergencyThreshold = 1000` and one open
real-money bet of 100, at multiplier 11 the potential net win is exactly
1000, yet `wouldTriggerEmergencyCrash` does NOT fire — the comparisons
are strict, so a potential net win EQUAL to the threshold is not
sufficient, contradicting "fires at or before the multiplier reaching
11". -/
theorem emergencyCheck_not_triggered_at_threshold :
    potentialNetWinnings [(100, "alice")] 11 = 1000 ∧
    wouldTriggerEmergencyCrash 0 0 1000 (potentialNetWinnings [(100, "alice")] 11) false
      = false := by
  constructor <;>
    norm_num [potentialNetWinnings, wouldTriggerEmergencyCrash, isRealWallet_alice]

/-- C3 (amended): in the scenario `emergencyThreshold = 1000`, one open
real-money bet of 100 and no prior winnings, the emergency check fires
exactly when the potential net win strictly exceeds the threshold, i.e.
exactly at multipliers strictly greater than 11 — not at 11. -/
theorem emergencyCheck_strict_threshold (m : ℚ) :
    wouldTriggerEmergencyCrash 0 0 1000 (potentialNetWinnings [(100, "alice")] m) false
      = true ↔ 11 < m := by
  have h : potentialNetWinnings [(100, "alice")] m = 100 * m - 100 := by
    simp [potentialNetWinnings, isRealWallet_alice]
  rw [h]
  simp only [wouldTriggerEmergencyCrash, Bool.false_eq_true, if_false, Bool.or_self,
    decide_eq_true_eq]
  constructor <;> intro h1 <;> linarith

/-- C4 counterexample: the offset is NOT updated by
`offset += max(0, totalStake - totalPayout)`.  With offset 100, one real
bet of 100 cashed out at 1.5 (final crash point 2), the payout is 150,
and the code stores `max(0, 100 + (100 - 150)) = 50`: the offset
DECREASED from 100 to 50, while the claimed update would have left it at
`100 + max(0, -50) = 100`. -/
theorem trackRoundResults_decreases_offset :
    trackRoundResults 100 [⟨"alice", 100, some (3/2)⟩] 2 = 50 ∧
    (100 : ℚ) + max 0 (100 - 150) = 100 ∧
    trackRoundResults 100 [⟨"alice", 100, some (3/2)⟩] 2 < 100 := by
  refine ⟨?_, by norm_num, ?_⟩ <;>
    norm_num [trackRoundResults, payoutOf, isRealWallet_alice, updateBetBasedOffsetAmount]

/-- C4 (amended): after a round with real-money bets the persisted offset
becomes `max(0, offset + (totalStake - totalPayout))` (and is left
unchanged when no real bets exist); the result is always ≥ 0, but a
round in which players win more than they staked DOES lower a positive
offset (clamped at 0), as the counterexample shows. -/
theorem trackRoundResults_clamped_sum (betBasedOffsetAmount finalCrashPoint : ℚ)
    (activeBets : List BetEntry) (hoff : 0 ≤ betBasedOffsetAmount) :
    0 ≤ trackRoundResults betBasedOffsetAmount activeBets finalCrashPoint ∧
    ((activeBets.filter fun bet => isRealWallet bet.walletId) ≠ [] →
      trackRoundResults betBasedOffsetAmount activeBets finalCrashPoint
        = max 0 (betBasedOffsetAmount
            + (((activeBets.filter fun bet => isRealWallet bet.walletId).map
                  fun bet => bet.amount).sum
               - ((activeBets.filter fun bet => isRealWallet bet.walletId).map
                  (payoutOf finalCrashPoint)).sum))) := by
  unfold trackRoundResults updateBetBasedOffsetAmount
  by_cases hreal : (activeBets.filter fun bet => isRealWallet bet.walletId) = []
  · rw [hreal]
    simp [hoff]
  · have hlen : ((activeBets.filter fun bet => isRealWallet bet.walletId).length = 0)
        = False := by
      simp [List.length_eq_zero, hreal]
    simp only [hlen, if_false]
    exact ⟨le_max_left _ _, fun _ => trivial⟩

/-- C4 witness: instantiating the amended statement on the
counterexample round. -/
theorem trackRoundResults_clamped_sum_witness :
    0 ≤ trackRoundResults 100 [⟨"alice", 100, some (3/2)⟩] 2 ∧
    (([⟨"alice", 100, some (3/2)⟩].filter
        fun bet => isRealWallet (BetEntry.walletId bet)) ≠ [] →
      trackRoundResults 100 [⟨"alice", 100, some (3/2)⟩] 2
        = max 0 (100
            + ((([⟨"alice", 100, some (3/2)⟩].filter
                  fun bet => isRealWallet (BetEntry.walletId bet)).map
                  fun bet => BetEntry.amount bet).sum
               - (([⟨"alice", 100, some (3/2)⟩].filter
                  fun bet => isRealWallet (BetEntry.walletId bet)).map
                  (payoutOf 2)).sum))) :=
  trackRoundResults_clamped_sum 100 2 [⟨"alice", 100, some (3/2)⟩] (by norm_num)

theorem advance_empty_gen_none (failsAt : ℕ → Bool) :
    ∀ fuel attempt, advanceToNextRound failsAt [] [] fuel attempt = none := by
  intro fuel
  induction fuel with
  | zero => intro attempt; rfl
  | succ n ih =>
    intro attempt
    unfold advanceToNextRound
    by_cases h : failsAt attempt = true
    · simp [h, ih]
    · simp only [Bool.not_eq_true] at h
      simp [h, ih]

/-- C8 counterexample: the empty-queue path of `advanceToNextRound` is an
UNBOUNDED self-recursion, not a bounded retry: when regeneration adds no
points, the call has still not returned after 1000 self-invocations
(`none` = fuel exhausted with the recursion still running), so no fixed
retry bound exists. -/
theorem advance_unbounded_recursion :
    advanceToNextRound (fun _ => false) [] [] 1000 0 = none :=
  advance_empty_gen_none (fun _ => false) 1000 0

/-- C8 (amended): `advanceToNextRound` retries by self-recursion with no
retry cap (see the counterexample); under the precondition that queries
do not fail and one synchronous regeneration produces at least one
point, it terminates after at most ONE self-invocation: fuel 2 always
suffices, for any starting queue. -/
theorem advance_terminates_with_points (p : ℚ) (rest queue : List ℚ) :
    (advanceToNextRound (fun _ => false) (p :: rest) queue 2 0).isSome = true := by
  cases queue with
  | nil => simp [advanceToNextRound]
  | cons q qs => simp [advanceToNextRound]

/-- C9: `updateUserBalance` persists exactly `max(0, newBalance)` for the
wallet — 0 when the requested balance is negative, the requested value
otherwise — so the stored balance is never negative; when an in-memory
user object is cached for the wallet, its cached balance is overwritten
with the same clamped value. -/
theorem updateUserBalance_never_negative (balances : String → ℚ)
    (cache : String → Option ℚ) (walletId : String) (newBalance : ℚ) :
    0 ≤ (updateUserBalance balances cache walletId newBalance).1 walletId ∧
    (updateUserBalance balances cache walletId newBalance).1 walletId
      = (if newBalance < 0 then 0 else newBalance) ∧
    (updateUserBalance balances cache walletId newBalance).2 walletId
      = (cache walletId).map fun _ => if newBalance < 0 then 0 else newBalance := by
  have hmax : max (0 : ℚ) newBalance = if newBalance < 0 then 0 else newBalance := by
    rcases lt_or_le newBalance 0 with h | h
    · rw [if_pos h, max_eq_left (le_of_lt h)]
    · rw [if_neg (not_lt.mpr h), max_eq_right h]
  have h1 : (updateUserBalance balances cache walletId newBalance).1 walletId
      = max 0 newBalance := by
    simp [updateUserBalance]
  refine ⟨by rw [h1]; exact le_max_left _ _, by rw [h1, hmax], ?_⟩
  simp [updateUserBalance, hmax]

/-- C1: `verifyGame` does NOT reproduce `calculateCrashPoint`.  At the
shared HMAC-derived 52-bit value `h = 3 * 2^48` (`r = 0.1875`), house
edge 0.25 and shared jitter byte 200, generation returns 1.0 (its
instant-crash bucket covers `r < 0.30`) while verification returns 23.95
(its table has instant crash only below `r = 0.10` and different
buckets), so third-party verification cannot reproduce the stored crash
point. -/
theorem verifyGame_ne_calculateCrashPoint :
    calculateCrashPoint false false 1000 (1/4) (3 * 2 ^ 48) 200 = 1 ∧
    verifyGame (1/4) (3 * 2 ^ 48) 200 = 2395/100 ∧
    verifyGame (1/4) (3 * 2 ^ 48) 200
      ≠ calculateCrashPoint false false 1000 (1/4) (3 * 2 ^ 48) 200 := by
  have h1 : calculateCrashPoint false false 1000 (1/4) (3 * 2 ^ 48) 200 = 1 := by
    norm_num [calculateCrashPoint, floor2, jitterFactor]
  have h2 : verifyGame (1/4) (3 * 2 ^ 48) 200 = 2395/100 := by
    norm_num [verifyGame, floor2, jitterFactor]
  refine ⟨h1, h2, ?_⟩
  rw [h1, h2]
  norm_num

end Watubet
